import Mathlib

/-! Dynamic loading of the MPI library (`src/nrnmpi/nrnmpi_dynam.c`).

A shallow embedding of `load_mpi`, `load_nrnmpi` and `nrnmpi_load`.

* Pointers (`void*`, library handles, the addresses of the function-pointer
  variables) are natural numbers, `0` being the null pointer.
* The platform loader (`dlopen`, `dlsym`, `dlerror`) is an environment `Env`:
  what each call yields.  `dlerror` follows POSIX: it returns the message of the
  last failed call since it was last asked, and forgets it.
* The C globals the code touches are the `State`: the memory of the
  function-pointer variables (`slots`, by address), the pending `dlerror`
  message, and the `trace` of what the process has done so far (loader calls,
  stores through `ppf`, lines printed to `stderr` and `stdout`).
* `abort()` ends the run: a function returns `Outcome.returned` with its value,
  or `Outcome.aborted` with the state the process died in.
-/

namespace NrnmpiDynam

/-- A C pointer: `0` is the null pointer. -/
abbrev Ptr := Nat

/-- The null pointer. -/
def NULL : Ptr := 0

/-- One row of `ftable` (declared in the generated `nrnmpi_dynam_cinc`):
`name` is the symbol (`none` for the null name of the terminating row) and `ppf`
the address of the function-pointer variable that receives the symbol. -/
structure FEntry where
  name : Option String
  ppf : Nat
deriving DecidableEq, Repr

/-- What the process does, in order. -/
inductive Event where
  | dlopen (name : String) (result : Ptr)
  | dlsym (handle : Ptr) (name : String) (result : Ptr)
  | store (ppf : Nat) (p : Ptr)
  | stderr (text : String)
  | stdout (text : String)
deriving DecidableEq, Repr

/-- The platform loader: the result of `dlopen(name, RTLD_NOW | RTLD_GLOBAL)`, of
`dlsym(handle, name)`, and the messages `dlerror` gives for a failed `dlopen` and a
failed `dlsym`. -/
structure Env where
  dlopen : String → Ptr
  dlsym : Ptr → String → Ptr
  openError : String → String
  symError : Ptr → String → String

/-- The part of the process the code reads and writes. -/
structure State where
  slots : Nat → Ptr
  dlerr : Option String
  trace : List Event

/-- A call either returns a value or the process has aborted. -/
inductive Outcome (α : Type) where
  | returned (value : α) (s : State)
  | aborted (s : State)

/-- Sequencing of C statements: nothing runs after an `abort()`. -/
def Outcome.bind {α β : Type} (r : Outcome α) (k : α → State → Outcome β) : Outcome β :=
  match r with
  | .returned v s => k v s
  | .aborted s => .aborted s

/-- The state in which the call ended. -/
def Outcome.state {α : Type} : Outcome α → State
  | .returned _ s => s
  | .aborted s => s

/-- Whether the call returned to its caller. -/
def Outcome.isReturned {α : Type} : Outcome α → Bool
  | .returned _ _ => true
  | .aborted _ => false

/-- Appends an event to the trace. -/
def State.emit (s : State) (e : Event) : State :=
  { s with trace := s.trace ++ [e] }

/-- The call `dlopen(name, RTLD_NOW | RTLD_GLOBAL)`: a failure leaves its message for
`dlerror`. -/
def sys_dlopen (env : Env) (name : String) (s : State) : Ptr × State :=
  let handle := env.dlopen name
  let s1 := s.emit (.dlopen name handle)
  (handle, if handle = NULL then { s1 with dlerr := some (env.openError name) } else s1)

/-- The call `dlsym(handle, name)`: a failure leaves its message for `dlerror`. -/
def sys_dlsym (env : Env) (handle : Ptr) (name : String) (s : State) : Ptr × State :=
  let p := env.dlsym handle name
  let s1 := s.emit (.dlsym handle name p)
  (p, if p = NULL then { s1 with dlerr := some (env.symError handle name) } else s1)

/-- The call `dlerror()`: the pending message (null when there is none), which is
then forgotten. -/
def sys_dlerror (s : State) : Option String × State :=
  (s.dlerr, { s with dlerr := none })

/-- How `%s` prints its argument (a null string prints as `(null)`). -/
def fmt_s : Option String → String
  | some m => m
  | none => "(null)"

/-- The call `fprintf(stderr, "<who>: %s\n", msg)`. -/
def fprintf_stderr (who : String) (msg : Option String) (s : State) : State :=
  s.emit (.stderr (who ++ ": " ++ fmt_s msg ++ "\n"))

/-- The call `printf(text)`. -/
def printf (text : String) (s : State) : State :=
  s.emit (.stdout text)

/-- The assignment `*ppf = p`. -/
def store (ppf : Nat) (p : Ptr) (s : State) : State :=
  { s with slots := fun a => if a = ppf then p else s.slots a,
           trace := s.trace ++ [.store ppf p] }

/-- The function `load_mpi` (lines 19-26). -/
def load_mpi (env : Env) (name : String) (s : State) : Outcome Ptr :=
  let (handle, s1) := sys_dlopen env name s
  if handle = NULL then
    let (msg, s2) := sys_dlerror s1
    .returned handle (fprintf_stderr "load_mpi" msg s2)
  else
    .returned handle s1

/-- The loop of `load_nrnmpi` (lines 36-44), `for (i = 0; ftable[i].name; ++i)`, on
the rows of the table from row `i` on.  A table that ends without a null name is
read as ending there. -/
def load_nrnmpi_loop (env : Env) (handle : Ptr) : List FEntry → State → Outcome Unit
  | [], s => .returned () s
  | e :: rest, s =>
    match e.name with
    | none => .returned () s
    | some name =>
      let (p, s1) := sys_dlsym env handle name s
      if handle = NULL then
        let (msg, s2) := sys_dlerror s1
        .aborted (fprintf_stderr "load_nrnmpi" msg s2)
      else
        load_nrnmpi_loop env handle rest (store e.ppf p s1)

/-- The function `load_nrnmpi` (lines 28-45). -/
def load_nrnmpi (env : Env) (ftable : List FEntry) (name : String) (s : State) :
    Outcome Unit :=
  let (handle, s1) := sys_dlopen env name s
  if handle = NULL then
    let (msg, s2) := sys_dlerror s1
    .aborted (fprintf_stderr "load_nrnmpi" msg s2)
  else
    load_nrnmpi_loop env handle ftable s1

/-- The function `nrnmpi_load` (lines 47-71); `DARWIN` is the compile-time switch. -/
def nrnmpi_load (DARWIN : Bool) (env : Env) (ftable : List FEntry) (s : State) :
    Outcome Unit :=
  let body : Outcome Ptr :=
    if DARWIN then
      (load_mpi env "libmpi.dylib" s).bind fun handle s1 =>
        if handle ≠ NULL then
          (load_nrnmpi env ftable "@loader_path/libnrnmpi.dylib" s1).bind fun _ s2 =>
            .returned handle s2
        else
          .aborted (printf
            "Is openmpi installed? If not in default location, need a LD_LIBRARY_PATH.\n" s1)
    else
      (load_mpi env "libmpi.so" s).bind fun handle s1 =>
        if handle ≠ NULL then
          (load_nrnmpi env ftable "libnrnmpi.so" s1).bind fun _ s2 =>
            .returned handle s2
        else
          (load_mpi env "libmpl.so" s1).bind fun _ s2 =>
            (load_mpi env "libmpich.so" s2).bind fun handle s3 =>
              (load_nrnmpi env ftable "libnrnmpi.so" s3).bind fun _ s4 =>
                .returned handle s4
  body.bind fun handle s1 =>
    if handle = NULL then
      .aborted (printf "could not dynamically load libmpi.so or libmpich2.so\n" s1)
    else
      .returned () s1

/-! ## Vocabulary of the properties -/

/-- The rows of the table before the first null name, as (name, address) pairs. -/
def entries : List FEntry → List (String × Nat)
  | [] => []
  | e :: rest =>
    match e.name with
    | none => []
    | some name => (name, e.ppf) :: entries rest

/-- The memory after the symbols of the rows have been stored, one row after the
other, through their addresses. -/
def writeAll (dlsym : Ptr → String → Ptr) (handle : Ptr) :
    List (String × Nat) → (Nat → Ptr) → (Nat → Ptr)
  | [], m => m
  | (name, a) :: rest, m =>
    writeAll dlsym handle rest (fun x => if x = a then dlsym handle name else m x)

/-- The events of binding the rows: a lookup and a store for each. -/
def bindEvents (env : Env) (handle : Ptr) : List (String × Nat) → List Event
  | [] => []
  | (name, a) :: rest =>
    .dlsym handle name (env.dlsym handle name) :: .store a (env.dlsym handle name) ::
      bindEvents env handle rest

/-- The state after binding the rows. -/
def bound (env : Env) (handle : Ptr) : List (String × Nat) → State → State
  | [], s => s
  | (name, a) :: rest, s =>
    bound env handle rest (store a (env.dlsym handle name) (sys_dlsym env handle name s).2)

/-- The events of one call of `load_mpi`. -/
def loadMpiEvents (env : Env) (name : String) : List Event :=
  .dlopen name (env.dlopen name) ::
    (if env.dlopen name = NULL then [.stderr ("load_mpi: " ++ env.openError name ++ "\n")]
     else [])

/-- The lines written to the diagnostic stream. -/
def stderrLines : List Event → List String
  | [] => []
  | .stderr text :: rest => text :: stderrLines rest
  | _ :: rest => stderrLines rest

/-- The texts printed on the standard output. -/
def stdoutLines : List Event → List String
  | [] => []
  | .stdout text :: rest => text :: stdoutLines rest
  | _ :: rest => stdoutLines rest

/-- The libraries opened, with the handle each open gave. -/
def opens : List Event → List (String × Ptr)
  | [] => []
  | .dlopen name h :: rest => (name, h) :: opens rest
  | _ :: rest => opens rest

/-- The symbol lookups made. -/
def lookups : List Event → List (Ptr × String)
  | [] => []
  | .dlsym h name _ :: rest => (h, name) :: lookups rest
  | _ :: rest => lookups rest

/-- The stores made through a `ppf`. -/
def stores : List Event → List (Nat × Ptr)
  | [] => []
  | .store a p :: rest => (a, p) :: stores rest
  | _ :: rest => stores rest

/-- The MPI libraries `nrnmpi_load` probes, in the order of the source. -/
def candidates (DARWIN : Bool) : List String :=
  if DARWIN then ["libmpi.dylib"] else ["libmpi.so", "libmpl.so", "libmpich.so"]

/-- The companion library `nrnmpi_load` hands to `load_nrnmpi`. -/
def companion (DARWIN : Bool) : String :=
  if DARWIN then "@loader_path/libnrnmpi.dylib" else "libnrnmpi.so"

/-- The guidance `nrnmpi_load` prints when no MPI library was loaded. -/
def guidance (DARWIN : Bool) : String :=
  if DARWIN then "Is openmpi installed? If not in default location, need a LD_LIBRARY_PATH.\n"
  else "could not dynamically load libmpi.so or libmpich2.so\n"

/-- The reading of the specification of the probing, on the opens of the candidate
libraries in order: once a candidate has opened, no further one is opened. -/
def stopsAtFirstOpen : List (String × Ptr) → Bool
  | [] => true
  | (_, h) :: rest => if h = NULL then stopsAtFirstOpen rest else rest.isEmpty

/-- The opens of candidate MPI libraries in a trace. -/
def candidateOpens (DARWIN : Bool) (tr : List Event) : List (String × Ptr) :=
  (opens tr).filter fun o => decide (o.1 ∈ candidates DARWIN)

/-- A process that has done nothing yet: every function pointer is null. -/
def start : State := ⟨fun _ => NULL, none, []⟩

/-- A table of two rows, for `f` and `g`, and the terminating row. -/
def tableFG : List FEntry := [⟨some "f", 10⟩, ⟨some "g", 11⟩, ⟨none, 0⟩]

/-- A loader in which exactly the listed libraries open and exactly the listed
symbols resolve. -/
def loaderOf (libs : List (String × Ptr)) (syms : List (String × Ptr)) : Env :=
  { dlopen := fun name => (libs.lookup name).getD NULL,
    dlsym := fun _ name => (syms.lookup name).getD NULL,
    openError := fun name => name ++ ": cannot open shared object file",
    symError := fun _ name => "undefined symbol: " ++ name }

/-- No library opens. -/
def envNone : Env := loaderOf [] []

/-- Every library opens and both symbols resolve. -/
def envAll : Env :=
  loaderOf [("libmpi.so", 1), ("libmpi.dylib", 1), ("libmpl.so", 2), ("libmpich.so", 4),
    ("libnrnmpi.so", 3), ("@loader_path/libnrnmpi.dylib", 3)] [("f", 100), ("g", 101)]

/-- Every library opens, `g` resolves and `f` is missing. -/
def envMissingF : Env :=
  loaderOf [("libmpi.so", 1), ("libmpi.dylib", 1), ("libmpl.so", 2), ("libmpich.so", 4),
    ("libnrnmpi.so", 3), ("@loader_path/libnrnmpi.dylib", 3)] [("g", 101)]

/-- Of the MPI libraries only `libmpl.so` opens; the companion opens. -/
def envMplOnly : Env :=
  loaderOf [("libmpl.so", 2), ("libnrnmpi.so", 3)] [("f", 100), ("g", 101)]

/-- As `envMplOnly`, but `libmpl.so` does not open either. -/
def envCompanionOnly : Env :=
  loaderOf [("libnrnmpi.so", 3)] [("f", 100), ("g", 101)]

/-! ## Lemmas on the vocabulary -/

theorem stderrLines_append (xs ys : List Event) :
    stderrLines (xs ++ ys) = stderrLines xs ++ stderrLines ys := by
  induction xs with
  | nil => rfl
  | cons x xs ih => cases x <;> simp [stderrLines, ih]

theorem stdoutLines_append (xs ys : List Event) :
    stdoutLines (xs ++ ys) = stdoutLines xs ++ stdoutLines ys := by
  induction xs with
  | nil => rfl
  | cons x xs ih => cases x <;> simp [stdoutLines, ih]

theorem opens_append (xs ys : List Event) : opens (xs ++ ys) = opens xs ++ opens ys := by
  induction xs with
  | nil => rfl
  | cons x xs ih => cases x <;> simp [opens, ih]

theorem lookups_append (xs ys : List Event) :
    lookups (xs ++ ys) = lookups xs ++ lookups ys := by
  induction xs with
  | nil => rfl
  | cons x xs ih => cases x <;> simp [lookups, ih]

theorem stores_append (xs ys : List Event) : stores (xs ++ ys) = stores xs ++ stores ys := by
  induction xs with
  | nil => rfl
  | cons x xs ih => cases x <;> simp [stores, ih]

theorem stderrLines_bindEvents (env : Env) (handle : Ptr) (es : List (String × Nat)) :
    stderrLines (bindEvents env handle es) = [] := by
  induction es with
  | nil => rfl
  | cons e es ih => obtain ⟨n, a⟩ := e; simpa [bindEvents, stderrLines] using ih

theorem stdoutLines_bindEvents (env : Env) (handle : Ptr) (es : List (String × Nat)) :
    stdoutLines (bindEvents env handle es) = [] := by
  induction es with
  | nil => rfl
  | cons e es ih => obtain ⟨n, a⟩ := e; simpa [bindEvents, stdoutLines] using ih

theorem opens_bindEvents (env : Env) (handle : Ptr) (es : List (String × Nat)) :
    opens (bindEvents env handle es) = [] := by
  induction es with
  | nil => rfl
  | cons e es ih => obtain ⟨n, a⟩ := e; simpa [bindEvents, opens] using ih

theorem sys_dlsym_fst (env : Env) (handle : Ptr) (name : String) (s : State) :
    (sys_dlsym env handle name s).1 = env.dlsym handle name := rfl

theorem sys_dlsym_slots (env : Env) (handle : Ptr) (name : String) (s : State) :
    (sys_dlsym env handle name s).2.slots = s.slots := by
  by_cases h : env.dlsym handle name = NULL <;> simp [sys_dlsym, State.emit, h]

theorem bound_slots (env : Env) (handle : Ptr) (es : List (String × Nat)) (s : State) :
    (bound env handle es s).slots = writeAll env.dlsym handle es s.slots := by
  induction es generalizing s with
  | nil => rfl
  | cons e es ih =>
    obtain ⟨n, a⟩ := e
    simp only [bound, writeAll, ih, store, sys_dlsym_slots]

theorem bound_trace (env : Env) (handle : Ptr) (es : List (String × Nat)) (s : State) :
    (bound env handle es s).trace = s.trace ++ bindEvents env handle es := by
  induction es generalizing s with
  | nil => simp [bound, bindEvents]
  | cons e es ih =>
    obtain ⟨n, a⟩ := e
    simp only [bound, bindEvents, ih]
    by_cases h : env.dlsym handle n = NULL <;>
      simp [store, sys_dlsym, State.emit, h]

/-- An address no row names keeps its value. -/
theorem writeAll_of_not_mem (dlsym : Ptr → String → Ptr) (handle : Ptr)
    (es : List (String × Nat)) (m : Nat → Ptr) (a : Nat) (ha : a ∉ es.map Prod.snd) :
    writeAll dlsym handle es m a = m a := by
  induction es generalizing m with
  | nil => rfl
  | cons e es ih =>
    obtain ⟨n, b⟩ := e
    simp only [List.map_cons, List.mem_cons, not_or] at ha
    simp only [writeAll]
    rw [ih _ ha.2]
    simp [ha.1]

/-- An address holds the symbol of the last row that names it. -/
theorem writeAll_last (dlsym : Ptr → String → Ptr) (handle : Ptr)
    (pre post : List (String × Nat)) (e : String × Nat) (m : Nat → Ptr)
    (ha : e.2 ∉ post.map Prod.snd) :
    writeAll dlsym handle (pre ++ e :: post) m e.2 = dlsym handle e.1 := by
  induction pre generalizing m with
  | nil =>
    obtain ⟨n, a⟩ := e
    simp only [List.nil_append, writeAll]
    rw [writeAll_of_not_mem _ _ _ _ _ ha]
    simp
  | cons p pre ih =>
    obtain ⟨n, b⟩ := p
    simp only [List.cons_append, writeAll]
    exact ih _

/-- An address that a row names holds the symbol of one of the rows that name it. -/
theorem writeAll_of_mem (dlsym : Ptr → String → Ptr) (handle : Ptr)
    (es : List (String × Nat)) (m : Nat → Ptr) (a : Nat) (ha : a ∈ es.map Prod.snd) :
    ∃ n, (n, a) ∈ es ∧ writeAll dlsym handle es m a = dlsym handle n := by
  induction es generalizing m with
  | nil => simp at ha
  | cons e es ih =>
    obtain ⟨n, b⟩ := e
    by_cases hrest : a ∈ es.map Prod.snd
    · obtain ⟨n', hmem, hval⟩ := ih (fun x => if x = b then dlsym handle n else m x) hrest
      exact ⟨n', List.mem_cons_of_mem _ hmem, by simpa [writeAll] using hval⟩
    · have hab : a = b := by
        simp only [List.map_cons, List.mem_cons] at ha
        rcases ha with h | h
        · exact h
        · exact absurd h hrest
      subst hab
      refine ⟨n, List.mem_cons_self _ _, ?_⟩
      simp only [writeAll]
      rw [writeAll_of_not_mem _ _ _ _ _ hrest]
      simp

/-- With an open library the loop of `load_nrnmpi` binds every row and returns. -/
theorem load_nrnmpi_loop_eq (env : Env) (handle : Ptr) (hh : handle ≠ NULL)
    (ftable : List FEntry) (s : State) :
    load_nrnmpi_loop env handle ftable s
      = .returned () (bound env handle (entries ftable) s) := by
  induction ftable generalizing s with
  | nil => rfl
  | cons e rest ih =>
    cases hn : e.name with
    | none => simp [load_nrnmpi_loop, entries, hn, bound]
    | some n => simp [load_nrnmpi_loop, entries, hn, bound, hh, ih, sys_dlsym_fst]

theorem load_mpi_eq (env : Env) (name : String) (s : State) :
    load_mpi env name s
      = .returned (env.dlopen name)
          { slots := s.slots,
            dlerr := if env.dlopen name = NULL then none else s.dlerr,
            trace := s.trace ++ loadMpiEvents env name } := by
  by_cases h : env.dlopen name = NULL <;>
    simp [load_mpi, sys_dlopen, sys_dlerror, fprintf_stderr, State.emit, loadMpiEvents, h,
      fmt_s]

theorem load_nrnmpi_of_open (env : Env) (ftable : List FEntry) (name : String) (s : State)
    (h : env.dlopen name ≠ NULL) :
    load_nrnmpi env ftable name s
      = .returned () (bound env (env.dlopen name) (entries ftable)
          { s with trace := s.trace ++ [.dlopen name (env.dlopen name)] }) := by
  simp [load_nrnmpi, sys_dlopen, State.emit, h, load_nrnmpi_loop_eq]

theorem load_nrnmpi_of_not_open (env : Env) (ftable : List FEntry) (name : String)
    (s : State) (h : env.dlopen name = NULL) :
    load_nrnmpi env ftable name s
      = .aborted { slots := s.slots, dlerr := none,
                   trace := s.trace ++ [.dlopen name NULL,
                     .stderr ("load_nrnmpi: " ++ env.openError name ++ "\n")] } := by
  simp [load_nrnmpi, sys_dlopen, sys_dlerror, fprintf_stderr, State.emit, h, fmt_s]

/-! ## The outcome of `nrnmpi_load` without `DARWIN` -/

theorem nrnmpi_load_linux_isReturned (env : Env) (ftable : List FEntry) (s : State) :
    (nrnmpi_load false env ftable s).isReturned
      = decide (env.dlopen "libnrnmpi.so" ≠ NULL ∧
          (env.dlopen "libmpi.so" ≠ NULL ∨ env.dlopen "libmpich.so" ≠ NULL)) := by
  by_cases h1 : env.dlopen "libmpi.so" = NULL <;>
  by_cases h3 : env.dlopen "libmpich.so" = NULL <;>
  by_cases hc : env.dlopen "libnrnmpi.so" = NULL <;>
    simp [nrnmpi_load, load_mpi_eq, Outcome.bind, h1, h3, hc, load_nrnmpi_of_not_open,
      load_nrnmpi_of_open, Outcome.isReturned]

theorem nrnmpi_load_linux_slots (env : Env) (ftable : List FEntry) (s : State) :
    (nrnmpi_load false env ftable s).state.slots
      = if env.dlopen "libnrnmpi.so" = NULL then s.slots
        else writeAll env.dlsym (env.dlopen "libnrnmpi.so") (entries ftable) s.slots := by
  by_cases h1 : env.dlopen "libmpi.so" = NULL <;>
  by_cases h3 : env.dlopen "libmpich.so" = NULL <;>
  by_cases hc : env.dlopen "libnrnmpi.so" = NULL <;>
    simp [nrnmpi_load, load_mpi_eq, Outcome.bind, h1, h3, hc, load_nrnmpi_of_not_open,
      load_nrnmpi_of_open, Outcome.state, bound_slots, printf, State.emit]

/-! ## The claims -/

/-- Claim C1, evaluated on the code: the library opens, `f` (the first row) is missing
and `g` resolves; `load_nrnmpi` does not abort but returns, having stored the null
result of the lookup of `f` in its variable and gone on to store the symbol of the later
row `g`.  The test after `dlsym` (line 38) is on `handle`, not on `p`. -/
theorem load_nrnmpi_missing_symbol_returns :
    envMissingF.dlopen "libnrnmpi.so" ≠ NULL ∧
    envMissingF.dlsym (envMissingF.dlopen "libnrnmpi.so") "f" = NULL ∧
    (load_nrnmpi envMissingF tableFG "libnrnmpi.so" start).isReturned = true ∧
    (load_nrnmpi envMissingF tableFG "libnrnmpi.so" start).state.slots 10 = NULL ∧
    stores (load_nrnmpi envMissingF tableFG "libnrnmpi.so" start).state.trace
      = [(10, NULL), (11, 101)] ∧
    stderrLines (load_nrnmpi envMissingF tableFG "libnrnmpi.so" start).state.trace = [] := by
  decide

/-- Claim C2: when the library named to `load_nrnmpi` opens and every name of the table
(the rows before the first null name) resolves to a non-null address, `load_nrnmpi`
returns, and afterwards the variable of every row is non-null; the variables of the rows
being distinct, each holds the address resolved for the name of its own row (in general,
a variable holds the address resolved for the last row that names it). -/
theorem load_nrnmpi_binds_all (env : Env) (ftable : List FEntry) (name : String) (s : State)
    (hopen : env.dlopen name ≠ NULL)
    (hres : ∀ e ∈ entries ftable, env.dlsym (env.dlopen name) e.1 ≠ NULL) :
    ∃ s', load_nrnmpi env ftable name s = .returned () s' ∧
      (∀ e ∈ entries ftable, s'.slots e.2 ≠ NULL) ∧
      (((entries ftable).map Prod.snd).Nodup →
        ∀ e ∈ entries ftable, s'.slots e.2 = env.dlsym (env.dlopen name) e.1) ∧
      (∀ pre e post, entries ftable = pre ++ e :: post → e.2 ∉ post.map Prod.snd →
        s'.slots e.2 = env.dlsym (env.dlopen name) e.1) := by
  refine ⟨_, load_nrnmpi_of_open env ftable name s hopen, ?_, ?_, ?_⟩
  · intro e he
    rw [bound_slots]
    obtain ⟨n, hmem, hval⟩ := writeAll_of_mem env.dlsym (env.dlopen name) (entries ftable)
      s.slots e.2 (List.mem_map_of_mem Prod.snd he)
    rw [hval]
    exact hres (n, e.2) hmem
  · intro hnd e he
    obtain ⟨pre, post, hsplit⟩ := List.append_of_mem he
    rw [bound_slots, hsplit]
    apply writeAll_last
    rw [hsplit, List.map_append, List.map_cons] at hnd
    have := (List.nodup_append.1 hnd).2.1
    exact (List.nodup_cons.1 this).1
  · intro pre e post hsplit hlast
    rw [bound_slots, hsplit]
    exact writeAll_last _ _ _ _ _ _ hlast

theorem load_nrnmpi_binds_all_witness :
    envAll.dlopen "libnrnmpi.so" ≠ NULL ∧
    (∀ e ∈ entries tableFG, envAll.dlsym (envAll.dlopen "libnrnmpi.so") e.1 ≠ NULL) ∧
    ((entries tableFG).map Prod.snd).Nodup ∧
    ∃ s', load_nrnmpi envAll tableFG "libnrnmpi.so" start = .returned () s' ∧
      (∀ e ∈ entries tableFG, s'.slots e.2 ≠ NULL) ∧
      (((entries tableFG).map Prod.snd).Nodup →
        ∀ e ∈ entries tableFG,
          s'.slots e.2 = envAll.dlsym (envAll.dlopen "libnrnmpi.so") e.1) ∧
      (∀ pre e post, entries tableFG = pre ++ e :: post → e.2 ∉ post.map Prod.snd →
        s'.slots e.2 = envAll.dlsym (envAll.dlopen "libnrnmpi.so") e.1) :=
  ⟨by decide, by decide, by decide,
    load_nrnmpi_binds_all envAll tableFG "libnrnmpi.so" start (by decide) (by decide)⟩

/-- Claim C3, evaluated on the code: with every library open and the symbol `f`
missing, `nrnmpi_load` returns on both platform variants, and the variable of `f` holds
the null pointer.  It is the test of line 38 again (on `handle`, not on `p`). -/
theorem nrnmpi_load_returns_with_null_slot :
    envMissingF.dlsym 3 "f" = NULL ∧
    (nrnmpi_load false envMissingF tableFG start).isReturned = true ∧
    (nrnmpi_load false envMissingF tableFG start).state.slots 10 = NULL ∧
    (nrnmpi_load true envMissingF tableFG start).isReturned = true ∧
    (nrnmpi_load true envMissingF tableFG start).state.slots 10 = NULL := by
  decide

/-- Claim C4: when none of the candidate MPI libraries of the platform variant opens,
`nrnmpi_load` aborts, whatever the companion library and the symbol lookups do, and by
then the diagnostic stream has received at least one new line, the one of the failed
open of the first candidate. -/
theorem nrnmpi_load_no_mpi_aborts (DARWIN : Bool) (env : Env) (ftable : List FEntry)
    (s : State) (hnone : ∀ c ∈ candidates DARWIN, env.dlopen c = NULL) :
    ∃ s', nrnmpi_load DARWIN env ftable s = .aborted s' ∧
      ∃ more, stderrLines s'.trace = stderrLines s.trace ++
        ("load_mpi: " ++ env.openError (if DARWIN then "libmpi.dylib" else "libmpi.so")
          ++ "\n") :: more := by
  cases DARWIN
  · simp only [candidates, Bool.false_eq_true, if_false, List.mem_cons, List.mem_singleton,
      forall_eq_or_imp, forall_eq, List.not_mem_nil, false_implies, implies_true, and_true]
      at hnone
    obtain ⟨h1, h2, h3⟩ := hnone
    by_cases hc : env.dlopen "libnrnmpi.so" = NULL
    · simp [nrnmpi_load, load_mpi_eq, Outcome.bind, h1, h2, h3, load_nrnmpi_of_not_open, hc,
        loadMpiEvents, stderrLines_append, stderrLines]
    · simp [nrnmpi_load, load_mpi_eq, Outcome.bind, h1, h2, h3, load_nrnmpi_of_open, hc,
        loadMpiEvents, stderrLines_append, stderrLines, bound_trace, printf, State.emit,
        stderrLines_bindEvents]
  · simp only [candidates, if_true, List.mem_singleton, forall_eq] at hnone
    simp [nrnmpi_load, load_mpi_eq, Outcome.bind, hnone, loadMpiEvents, stderrLines_append,
      stderrLines, printf, State.emit]

theorem nrnmpi_load_no_mpi_aborts_witness :
    (∀ c ∈ candidates false, envCompanionOnly.dlopen c = NULL) ∧
    ∃ s', nrnmpi_load false envCompanionOnly tableFG start = .aborted s' ∧
      ∃ more, stderrLines s'.trace = stderrLines start.trace ++
        ("load_mpi: " ++ envCompanionOnly.openError (if false then "libmpi.dylib" else "libmpi.so")
          ++ "\n") :: more :=
  ⟨by decide, nrnmpi_load_no_mpi_aborts false envCompanionOnly tableFG start (by decide)⟩

/-- Claim C5, evaluated on the code: without `DARWIN`, when no MPI library opens and
the companion library does not open either, `nrnmpi_load` aborts inside `load_nrnmpi`
(line 34), which it calls before the test of `handle` (line 67): nothing has been
printed on the standard output, the guidance of line 68 is never reached. -/
theorem nrnmpi_load_aborts_without_guidance :
    (∀ c ∈ candidates false, envNone.dlopen c = NULL) ∧
    envNone.dlopen (companion false) = NULL ∧
    (nrnmpi_load false envNone tableFG start).isReturned = false ∧
    stdoutLines (nrnmpi_load false envNone tableFG start).state.trace = [] ∧
    guidance false ∉ stdoutLines (nrnmpi_load false envNone tableFG start).state.trace := by
  decide

/-- Claim C6: `load_mpi` always returns to its caller, with the result of the open of
the loader (null exactly when the library does not open); it leaves every
function-pointer variable as it was and stores nothing; the diagnostic stream receives
the one line `load_mpi: <loader error>` when the open fails and nothing when it
succeeds. -/
theorem load_mpi_never_fatal (env : Env) (name : String) (s : State) :
    ∃ s', load_mpi env name s = .returned (env.dlopen name) s' ∧
      s'.slots = s.slots ∧
      s'.trace = s.trace ++ .dlopen name (env.dlopen name) ::
        (if env.dlopen name = NULL
          then [.stderr ("load_mpi: " ++ env.openError name ++ "\n")] else []) ∧
      stderrLines s'.trace = stderrLines s.trace ++
        (if env.dlopen name = NULL then ["load_mpi: " ++ env.openError name ++ "\n"] else []) ∧
      stores s'.trace = stores s.trace := by
  refine ⟨_, load_mpi_eq env name s, rfl, rfl, ?_, ?_⟩
  · by_cases h : env.dlopen name = NULL <;>
      simp [loadMpiEvents, stderrLines_append, stderrLines, h]
  · by_cases h : env.dlopen name = NULL <;>
      simp [loadMpiEvents, stores_append, stores, h]

/-- Claim C7: when the library named to `load_nrnmpi` does not open, `load_nrnmpi`
aborts; all it has done is the failed open and the one line
`load_nrnmpi: <loader error>` on the diagnostic stream: no symbol was looked up, nothing
was stored, and every function-pointer variable has the value it had before. -/
theorem load_nrnmpi_open_failure (env : Env) (ftable : List FEntry) (name : String)
    (s : State) (hfail : env.dlopen name = NULL) :
    ∃ s', load_nrnmpi env ftable name s = .aborted s' ∧
      s'.slots = s.slots ∧
      s'.trace = s.trace ++
        [.dlopen name NULL, .stderr ("load_nrnmpi: " ++ env.openError name ++ "\n")] ∧
      stderrLines s'.trace
        = stderrLines s.trace ++ ["load_nrnmpi: " ++ env.openError name ++ "\n"] ∧
      lookups s'.trace = lookups s.trace ∧
      stores s'.trace = stores s.trace := by
  refine ⟨_, load_nrnmpi_of_not_open env ftable name s hfail, rfl, rfl, ?_, ?_, ?_⟩
  · simp [stderrLines_append, stderrLines]
  · simp [lookups_append, lookups]
  · simp [stores_append, stores]

theorem load_nrnmpi_open_failure_witness :
    envNone.dlopen "libnrnmpi.so" = NULL ∧
    ∃ s', load_nrnmpi envNone tableFG "libnrnmpi.so" start = .aborted s' ∧
      s'.slots = start.slots ∧
      s'.trace = start.trace ++
        [.dlopen "libnrnmpi.so" NULL,
          .stderr ("load_nrnmpi: " ++ envNone.openError "libnrnmpi.so" ++ "\n")] ∧
      stderrLines s'.trace
        = stderrLines start.trace ++
          ["load_nrnmpi: " ++ envNone.openError "libnrnmpi.so" ++ "\n"] ∧
      lookups s'.trace = lookups start.trace ∧
      stores s'.trace = stores start.trace :=
  ⟨by decide, load_nrnmpi_open_failure envNone tableFG "libnrnmpi.so" start (by decide)⟩

/-- Claim C8 fails as stated: without `DARWIN`, `libmpi.so` does not open and
`libmpl.so` opens, yet `libmpich.so` is opened after it, and as `libmpich.so` does not
open the run aborts although a candidate had opened. -/
theorem probing_continues_after_libmpl :
    envMplOnly.dlopen "libmpi.so" = NULL ∧ envMplOnly.dlopen "libmpl.so" ≠ NULL ∧
    candidateOpens false (nrnmpi_load false envMplOnly tableFG start).state.trace
      = [("libmpi.so", NULL), ("libmpl.so", 2), ("libmpich.so", NULL)] ∧
    stopsAtFirstOpen
      (candidateOpens false (nrnmpi_load false envMplOnly tableFG start).state.trace)
      = false ∧
    (nrnmpi_load false envMplOnly tableFG start).isReturned = false := by
  decide

/-- Claim C8, amended: `nrnmpi_load` opens the first candidate (`libmpi.dylib` with
`DARWIN`, `libmpi.so` without) first; when it opens, no other candidate is opened and the
only other library opened is the companion, handed to `load_nrnmpi`.  With `DARWIN`,
when `libmpi.dylib` does not open nothing else is opened and the run aborts.  Without
`DARWIN`, when `libmpi.so` does not open, `libmpl.so` and then `libmpich.so` are both
opened, whatever the open of `libmpl.so` gave; the handle that decides is the one of
`libmpich.so`: when it opens, the companion is opened next, handed to `load_nrnmpi`, and
when it does not open the run aborts, even if `libmpl.so` opened. -/
theorem nrnmpi_load_probe_order (DARWIN : Bool) (env : Env) (ftable : List FEntry)
    (s : State) :
    (∃ more, opens (nrnmpi_load DARWIN env ftable s).state.trace
      = opens s.trace ++
        (if DARWIN then "libmpi.dylib" else "libmpi.so",
          env.dlopen (if DARWIN then "libmpi.dylib" else "libmpi.so")) :: more) ∧
    (env.dlopen (if DARWIN then "libmpi.dylib" else "libmpi.so") ≠ NULL →
      opens (nrnmpi_load DARWIN env ftable s).state.trace
        = opens s.trace ++
          [(if DARWIN then "libmpi.dylib" else "libmpi.so",
              env.dlopen (if DARWIN then "libmpi.dylib" else "libmpi.so")),
            (companion DARWIN, env.dlopen (companion DARWIN))]) ∧
    (DARWIN = true → env.dlopen "libmpi.dylib" = NULL →
      opens (nrnmpi_load DARWIN env ftable s).state.trace
        = opens s.trace ++ [("libmpi.dylib", NULL)] ∧
      (nrnmpi_load DARWIN env ftable s).isReturned = false) ∧
    (DARWIN = false → env.dlopen "libmpi.so" = NULL →
      (∃ more, opens (nrnmpi_load DARWIN env ftable s).state.trace
        = opens s.trace ++
          [("libmpi.so", NULL), ("libmpl.so", env.dlopen "libmpl.so"),
            ("libmpich.so", env.dlopen "libmpich.so")] ++ more) ∧
      (env.dlopen "libmpich.so" ≠ NULL →
        opens (nrnmpi_load DARWIN env ftable s).state.trace
          = opens s.trace ++
            [("libmpi.so", NULL), ("libmpl.so", env.dlopen "libmpl.so"),
              ("libmpich.so", env.dlopen "libmpich.so"),
              ("libnrnmpi.so", env.dlopen "libnrnmpi.so")]) ∧
      (env.dlopen "libmpich.so" = NULL →
        (nrnmpi_load DARWIN env ftable s).isReturned = false)) := by
  cases DARWIN
  · refine ⟨?_, ?_, ?_, ?_⟩
    · by_cases h1 : env.dlopen "libmpi.so" = NULL <;>
      by_cases h2 : env.dlopen "libmpl.so" = NULL <;>
      by_cases h3 : env.dlopen "libmpich.so" = NULL <;>
      by_cases hc : env.dlopen "libnrnmpi.so" = NULL <;>
        simp [nrnmpi_load, load_mpi_eq, Outcome.bind, h1, h2, h3, hc, load_nrnmpi_of_not_open,
          load_nrnmpi_of_open, Outcome.state, loadMpiEvents, opens_append,
          opens, bound_trace, opens_bindEvents, printf, State.emit]
    · intro h1
      simp only [Bool.false_eq_true, if_false] at h1
      by_cases hc : env.dlopen "libnrnmpi.so" = NULL <;>
        simp [nrnmpi_load, load_mpi_eq, Outcome.bind, h1, hc, load_nrnmpi_of_not_open,
          load_nrnmpi_of_open, Outcome.state, loadMpiEvents, opens_append,
          opens, bound_trace, opens_bindEvents, companion]
    · intro h; cases h
    · intro _ h1
      by_cases h2 : env.dlopen "libmpl.so" = NULL <;>
      by_cases h3 : env.dlopen "libmpich.so" = NULL <;>
      by_cases hc : env.dlopen "libnrnmpi.so" = NULL <;>
        simp [nrnmpi_load, load_mpi_eq, Outcome.bind, h1, h2, h3, hc, load_nrnmpi_of_not_open,
          load_nrnmpi_of_open, Outcome.isReturned, Outcome.state, loadMpiEvents, opens_append,
          opens, bound_trace, opens_bindEvents, printf, State.emit]
  · refine ⟨?_, ?_, ?_, ?_⟩
    · by_cases h1 : env.dlopen "libmpi.dylib" = NULL <;>
      by_cases hc : env.dlopen "@loader_path/libnrnmpi.dylib" = NULL <;>
        simp [nrnmpi_load, load_mpi_eq, Outcome.bind, h1, hc, load_nrnmpi_of_not_open,
          load_nrnmpi_of_open, Outcome.state, loadMpiEvents, opens_append,
          opens, bound_trace, opens_bindEvents, printf, State.emit]
    · intro h1
      simp only [if_true] at h1
      by_cases hc : env.dlopen "@loader_path/libnrnmpi.dylib" = NULL <;>
        simp [nrnmpi_load, load_mpi_eq, Outcome.bind, h1, hc, load_nrnmpi_of_not_open,
          load_nrnmpi_of_open, Outcome.state, loadMpiEvents, opens_append,
          opens, bound_trace, opens_bindEvents, companion]
    · intro _ h1
      simp [nrnmpi_load, load_mpi_eq, Outcome.bind, h1, Outcome.isReturned, Outcome.state,
        loadMpiEvents, opens_append, opens, printf, State.emit]
    · intro h; cases h

theorem nrnmpi_load_probe_order_witness :
    envAll.dlopen "libmpi.so" ≠ NULL ∧
    opens (nrnmpi_load false envAll tableFG start).state.trace
      = opens start.trace ++
        [(if false then "libmpi.dylib" else "libmpi.so",
            envAll.dlopen (if false then "libmpi.dylib" else "libmpi.so")),
          (companion false, envAll.dlopen (companion false))] ∧
    envNone.dlopen "libmpi.dylib" = NULL ∧
    (opens (nrnmpi_load true envNone tableFG start).state.trace
        = opens start.trace ++ [("libmpi.dylib", NULL)] ∧
      (nrnmpi_load true envNone tableFG start).isReturned = false) ∧
    envMplOnly.dlopen "libmpi.so" = NULL ∧ envMplOnly.dlopen "libmpich.so" = NULL ∧
    (nrnmpi_load false envMplOnly tableFG start).isReturned = false :=
  ⟨by decide, (nrnmpi_load_probe_order false envAll tableFG start).2.1 (by decide),
    by decide, (nrnmpi_load_probe_order true envNone tableFG start).2.2.1 rfl (by decide),
    by decide, by decide,
    ((nrnmpi_load_probe_order false envMplOnly tableFG start).2.2.2 rfl (by decide)).2.2
      (by decide)⟩

/-- Claim C9, evaluated on the code: without `DARWIN`, when none of the three MPI
libraries opens, `nrnmpi_load` still calls `load_nrnmpi` (line 64, before the test of
`handle` at line 67): the companion library is opened and the variables of the table are
written before the process aborts. -/
theorem companion_bound_without_mpi :
    (∀ c ∈ candidates false, envCompanionOnly.dlopen c = NULL) ∧
    opens (nrnmpi_load false envCompanionOnly tableFG start).state.trace
      = [("libmpi.so", NULL), ("libmpl.so", NULL), ("libmpich.so", NULL),
          ("libnrnmpi.so", 3)] ∧
    stores (nrnmpi_load false envCompanionOnly tableFG start).state.trace
      = [(10, 100), (11, 101)] ∧
    (nrnmpi_load false envCompanionOnly tableFG start).state.slots 10 = 100 ∧
    start.slots 10 = NULL ∧
    (nrnmpi_load false envCompanionOnly tableFG start).isReturned = false := by
  decide

/-- Claim C10: without `DARWIN`, `nrnmpi_load` returns exactly when `libnrnmpi.so`
opens and one of `libmpi.so` and `libmpich.so` opens; a loader that differs only in the
result of the open of `libmpl.so` gives the same outcome (return or abort) and the same
final values of the function-pointer variables; so a run in which neither `libmpi.so` nor
`libmpich.so` opens aborts, whether `libmpl.so` opens or not. -/
theorem nrnmpi_load_linux_success_condition (env env' : Env) (ftable : List FEntry)
    (s : State) (hopen : ∀ name, name ≠ "libmpl.so" → env'.dlopen name = env.dlopen name)
    (hsym : env'.dlsym = env.dlsym) :
    ((nrnmpi_load false env ftable s).isReturned = true ↔
      env.dlopen "libnrnmpi.so" ≠ NULL ∧
        (env.dlopen "libmpi.so" ≠ NULL ∨ env.dlopen "libmpich.so" ≠ NULL)) ∧
    (nrnmpi_load false env' ftable s).isReturned
      = (nrnmpi_load false env ftable s).isReturned ∧
    (nrnmpi_load false env' ftable s).state.slots
      = (nrnmpi_load false env ftable s).state.slots ∧
    (env.dlopen "libmpi.so" = NULL → env.dlopen "libmpich.so" = NULL →
      (nrnmpi_load false env ftable s).isReturned = false) := by
  have e1 : env'.dlopen "libmpi.so" = env.dlopen "libmpi.so" := hopen _ (by decide)
  have e3 : env'.dlopen "libmpich.so" = env.dlopen "libmpich.so" := hopen _ (by decide)
  have ec : env'.dlopen "libnrnmpi.so" = env.dlopen "libnrnmpi.so" := hopen _ (by decide)
  refine ⟨?_, ?_, ?_, ?_⟩
  · rw [nrnmpi_load_linux_isReturned]; simp
  · rw [nrnmpi_load_linux_isReturned, nrnmpi_load_linux_isReturned, e1, e3, ec]
  · rw [nrnmpi_load_linux_slots, nrnmpi_load_linux_slots, ec, hsym]
  · intro h1 h3
    rw [nrnmpi_load_linux_isReturned]; simp [h1, h3]

theorem nrnmpi_load_linux_success_condition_witness :
    (∀ name, name ≠ "libmpl.so" → envCompanionOnly.dlopen name = envMplOnly.dlopen name) ∧
    envCompanionOnly.dlsym = envMplOnly.dlsym ∧
    envCompanionOnly.dlopen "libmpl.so" ≠ envMplOnly.dlopen "libmpl.so" ∧
    (((nrnmpi_load false envMplOnly tableFG start).isReturned = true ↔
      envMplOnly.dlopen "libnrnmpi.so" ≠ NULL ∧
        (envMplOnly.dlopen "libmpi.so" ≠ NULL ∨ envMplOnly.dlopen "libmpich.so" ≠ NULL)) ∧
    (nrnmpi_load false envCompanionOnly tableFG start).isReturned
      = (nrnmpi_load false envMplOnly tableFG start).isReturned ∧
    (nrnmpi_load false envCompanionOnly tableFG start).state.slots
      = (nrnmpi_load false envMplOnly tableFG start).state.slots ∧
    (envMplOnly.dlopen "libmpi.so" = NULL → envMplOnly.dlopen "libmpich.so" = NULL →
      (nrnmpi_load false envMplOnly tableFG start).isReturned = false)) :=
  have hagree : ∀ name, name ≠ "libmpl.so" →
      envCompanionOnly.dlopen name = envMplOnly.dlopen name := by
    intro name hn
    have hb : (name == "libmpl.so") = false := by simpa using hn
    simp [envCompanionOnly, envMplOnly, loaderOf, List.lookup, hb]
  ⟨hagree, rfl, by decide,
    nrnmpi_load_linux_success_condition envMplOnly envCompanionOnly tableFG start hagree rfl⟩

end NrnmpiDynam
